import Mathlib

/-!
Verification of the schema-resolution and row-normalization engine of
`scformatter.py` (SecureChangeRequestFormatter).  The Python source is
shallowly embedded below: cell values are a closed tagged variant,
dictionary/tuple accesses that can raise become `Except`, and the string
helpers of the standard library (`strip`, `re.split`, `isnumeric`,
`replace`, `join`) are re-implemented over `List Char` so that everything
is executable and kernel-reducible.
-/

namespace SCFormatter

/-- A spreadsheet cell value as produced by the workbook reader:
text, a number, or an empty/absent cell (Python `None`). -/
inductive Cell where
  | str : String → Cell
  | int : Int → Cell
  | empty : Cell
deriving DecidableEq, Repr

/-- Drop leading and trailing whitespace from a character list
(Python `str.strip`). -/
def trimL (l : List Char) : List Char :=
  ((l.dropWhile Char.isWhitespace).reverse.dropWhile Char.isWhitespace).reverse

/-- Python `s.strip()` for our `String` model. -/
def pyStrip (s : String) : String := ⟨trimL s.data⟩

/-- `safe_strip` (scformatter.py lines 128-142):
`s.strip() if isinstance(s, str) else str(s) if s else ''`.
A string is stripped; a truthy (non-zero) number becomes its display
text; falsy content (`None`, the number 0) becomes the empty string. -/
def safe_strip : Cell → String
  | Cell.str s => pyStrip s
  | Cell.int n => if n = 0 then "" else toString n
  | Cell.empty => ""

/-- Helper for `splitCells`: accumulates the current fragment (reversed). -/
def splitAuxL (p : Char → Bool) : List Char → List Char → List String
  | [], acc => [⟨acc.reverse⟩]
  | c :: cs, acc =>
      if p c then ⟨acc.reverse⟩ :: splitAuxL p cs []
      else splitAuxL p cs (c :: acc)

/-- Python `re.split('\n|,', s)` (scformatter.py lines 212/215/218): split
on every newline or comma, keeping empty fragments. -/
def splitCells (s : String) : List String :=
  splitAuxL (fun c => c = '\n' || c = ',') s.data []

/-- `"; ".join(re.split('\n|,', v))` — the source/destination value
transformation (scformatter.py lines 212 and 215). -/
def joinSplit (v : String) : String :=
  String.intercalate "; " (splitCells v)

/-- Characters accepted by Python `str.isnumeric`: the decimal digits
together with every character carrying a Unicode `Numeric_Type`.  Beyond
the ASCII digits we list a representative table of such characters —
vulgar fractions (the Python documentation's own example U+2155 VULGAR
FRACTION ONE FIFTH among them), superscript digits and a Roman
numeral. -/
def pyNumericChar (c : Char) : Bool :=
  c.isDigit || ['½', '⅓', '⅕', '¹', '²', '³', 'Ⅻ'].contains c

/-- Python `s.isnumeric()`: non-empty and every character numeric. -/
def pyIsNumeric (s : String) : Bool :=
  !s.data.isEmpty && s.data.all pyNumericChar

/-- One service fragment: `f"TCP {srv}" if srv.isnumeric() else srv`
(scformatter.py line 219). -/
def tagFragment (f : String) : String :=
  if pyIsNumeric f then "TCP " ++ f else f

/-- Fuel-driven literal substring replacement over character lists,
Python `str.replace` (replace all non-overlapping occurrences,
left to right).  The fuel is the length of the scanned list, enough for
one step per consumed character. -/
def replaceAux (pat rep : List Char) : Nat → List Char → List Char
  | 0, l => l
  | _ + 1, [] => []
  | fuel + 1, c :: cs =>
      if pat ≠ [] ∧ pat.isPrefixOf (c :: cs) then
        rep ++ replaceAux pat rep fuel ((c :: cs).drop pat.length)
      else
        c :: replaceAux pat rep fuel cs

/-- Python `s.replace(pat, rep)` for non-empty literal patterns. -/
def pyReplace (s pat rep : String) : String :=
  ⟨replaceAux pat.data rep.data s.data.length s.data⟩

/-- The `service_replace` loop (scformatter.py lines 221-222): apply each
(pattern, replacement) pair in configured order as a literal substring
replacement over the joined service string. -/
def applyReplaces (rules : List (String × String)) (s : String) : String :=
  rules.foldl (fun acc pr => pyReplace acc pr.1 pr.2) s

/-- The whole service value transformation (scformatter.py lines
217-222): split on newline/comma, drop empty fragments, tag numeric
fragments with `"TCP "`, join with `"; "`, then run the substitution
ruleset. -/
def srvTransform (repl : List (String × String)) (v : String) : String :=
  applyReplaces repl
    (String.intercalate "; " (((splitCells v).filter (fun x => !(x == ""))).map tagFragment))

/-- The reasons appended to `error_msg` during row validation.  Each
constructor stands for the corresponding f-string of the source:
`missSrc` for `f"Miss '{configs["SRC"]}'"` (line 213), `missDst` for the
DST message (line 216), `missSrv` for the SRV message (line 223), and
`bothAddRm` for `f"Have Both ('{configs["ADD"]}'&'{configs["RM"]}')"`
(line 226, the mutual-exclusion reason). -/
inductive Reason where
  | missSrc : Reason
  | missDst : Reason
  | missSrv : Reason
  | bothAddRm : Reason
deriving DecidableEq, Repr

/-- The canonical 5-tuple written to an output row (scformatter.py lines
245-249): source, destination, service, action, comment. -/
structure CanonicalRow where
  src : String
  dst : String
  srv : String
  act : String
  cmt : String
deriving DecidableEq, Repr

/-- Per-row outcome: written to the output (`accepted`), silently dropped
by the `len(error_msg) == 3` test (`skipped`, line 237-238), or dropped
with a printed reasons list (`rejected`, lines 239-241). -/
inductive RowOutcome where
  | accepted : CanonicalRow → RowOutcome
  | skipped : RowOutcome
  | rejected : List Reason → RowOutcome
deriving DecidableEq, Repr

/-- The `ACT` value (scformatter.py lines 224-231): when both flags are
truthy no assignment happens (the row is rejected; the `defaultdict`
default `""` is returned here); otherwise `"accept"` if the add flag is
truthy, `"remove"` if only the remove flag is, `""` if neither. -/
def actionOf (addT rmT : String) : String :=
  if addT ≠ "" ∧ rmT ≠ "" then ""
  else if addT ≠ "" then "accept"
  else if rmT ≠ "" then "remove"
  else ""

/-- The `CMT` value (scformatter.py lines 232-236): collect the non-empty
ones of the stripped usage and comment texts, in that order, and join
with `"|"`. -/
def commentOf (usgT cmtT : String) : String :=
  String.intercalate "|"
    ((if usgT ≠ "" then [usgT] else []) ++ (if cmtT ≠ "" then [cmtT] else []))

/-- The `error_msg` list accumulated over a row (scformatter.py lines
210-231), in source order: missing-source, missing-destination,
missing-service, then the mutual-exclusion reason. -/
def rowErrors (srcT dstT srvT addT rmT : String) : List Reason :=
  (if srcT = "" then [Reason.missSrc] else []) ++
  (if dstT = "" then [Reason.missDst] else []) ++
  (if srvT = "" then [Reason.missSrv] else []) ++
  (if addT ≠ "" ∧ rmT ≠ "" then [Reason.bothAddRm] else [])

/-- Row validation and transformation on the seven stripped cell texts
(scformatter.py lines 210-249).  The outcome decision is the source's
`if error_msg and len(error_msg) == 3: continue / elif error_msg:
reject / else: write`; since a length-3 list is never empty the first
test is just the length test.  The `values` dict is a
`defaultdict(str)`, so a field that was never assigned reads as `""`. -/
def normalizeCore (repl : List (String × String))
    (srcT dstT srvT addT rmT usgT cmtT : String) : RowOutcome :=
  if (rowErrors srcT dstT srvT addT rmT).length = 3 then
    RowOutcome.skipped
  else if rowErrors srcT dstT srvT addT rmT ≠ [] then
    RowOutcome.rejected (rowErrors srcT dstT srvT addT rmT)
  else
    RowOutcome.accepted
      { src := if srcT = "" then "" else joinSplit srcT
        dst := if dstT = "" then "" else joinSplit dstT
        srv := if srvT = "" then "" else srvTransform repl srvT
        act := actionOf addT rmT
        cmt := commentOf usgT cmtT }

/-- The seven logical fields of the configuration
(`ALL_CONFIGS`, scformatter.py line 21). -/
inductive Field where
  | SRC | DST | SRV | ADD | RM | USG | CMT
deriving DecidableEq, Repr

/-- The per-sheet `cfgs` dictionary (scformatter.py line 191): for each
logical field, the column index it was bound to, if any. -/
structure Resolved where
  src : Option Nat := none
  dst : Option Nat := none
  srv : Option Nat := none
  add : Option Nat := none
  rm : Option Nat := none
  usg : Option Nat := none
  cmt : Option Nat := none
deriving DecidableEq, Repr

/-- Read a binding of the `cfgs` dictionary. -/
def getCol (r : Resolved) : Field → Option Nat
  | Field.SRC => r.src
  | Field.DST => r.dst
  | Field.SRV => r.srv
  | Field.ADD => r.add
  | Field.RM => r.rm
  | Field.USG => r.usg
  | Field.CMT => r.cmt

/-- Write a binding of the `cfgs` dictionary (a Python dict assignment:
it overwrites any earlier binding of the same key). -/
def setCol (r : Resolved) : Field → Nat → Resolved
  | Field.SRC, i => { r with src := some i }
  | Field.DST, i => { r with dst := some i }
  | Field.SRV, i => { r with srv := some i }
  | Field.ADD, i => { r with add := some i }
  | Field.RM, i => { r with rm := some i }
  | Field.USG, i => { r with usg := some i }
  | Field.CMT, i => { r with cmt := some i }

/-- The run configuration (the parsed `config.json`): for each logical
field the literal header text the user's spreadsheets use (the five
required ones and the two optional ones may each be absent), plus the
`service_replace` substitution ruleset, which `COMPLEX_CONFIGS`
(line 23) excludes from the reverse header index. -/
structure Configs where
  src : Option String := none
  dst : Option String := none
  srv : Option String := none
  add : Option String := none
  rm : Option String := none
  usg : Option String := none
  cmt : Option String := none
  service_replace : List (String × String) := []
deriving DecidableEq, Repr

/-- The (header text, logical field) pairs of the configuration, in the
SRC, DST, SRV, ADD, RM, USG, CMT order of the config file.
`service_replace` is excluded (`COMPLEX_CONFIGS`, line 171). -/
def Configs.entries (c : Configs) : List (String × Field) :=
  (match c.src with | some h => [(h, Field.SRC)] | none => []) ++
  (match c.dst with | some h => [(h, Field.DST)] | none => []) ++
  (match c.srv with | some h => [(h, Field.SRV)] | none => []) ++
  (match c.add with | some h => [(h, Field.ADD)] | none => []) ++
  (match c.rm with | some h => [(h, Field.RM)] | none => []) ++
  (match c.usg with | some h => [(h, Field.USG)] | none => []) ++
  (match c.cmt with | some h => [(h, Field.CMT)] | none => [])

/-- The `reverse_configs` dictionary lookup (scformatter.py line 171):
header text to logical field.  The dict comprehension lets a later
config entry overwrite an earlier one with the same header text, hence
the lookup scans the entries from the back. -/
def revLookup (c : Configs) (s : String) : Option Field :=
  (c.entries.reverse.find? (fun p => p.1 == s)).map Prod.snd

/-- One step of the `cfgs` dict comprehension (scformatter.py line 191):
if the stripped cell text is a configured header, bind (overwrite) that
field to the cell's column index. -/
def resolveStep (cfg : Configs) (acc : Resolved) (p : Nat × String) : Resolved :=
  match revLookup cfg p.2 with
  | some f => setCol acc f p.1
  | none => acc

/-- The `cfgs` dict comprehension over an already annotated scan list. -/
def resolveFold (cfg : Configs) (l : List (Nat × String)) : Resolved :=
  l.foldl (resolveStep cfg) {}

/-- The annotated header scan (scformatter.py lines 188-190): the first
two rows, each cell stripped with `safe_strip` and paired with its
column index (`enumerate` restarts at 0 on each row), row one before
row two. -/
def scanPairs (headerRows : List (List Cell)) : List (Nat × String) :=
  (headerRows.map (fun r => (r.map safe_strip).enum)).flatten

/-- Schema resolution for one sheet (scformatter.py lines 188-191). -/
def resolveCols (cfg : Configs) (headerRows : List (List Cell)) : Resolved :=
  resolveFold cfg (scanPairs headerRows)

/-- The sheet validation test (scformatter.py line 192): all five
required logical fields (`REQUIRED_CONFIGS`, line 22) were bound. -/
def requiredResolved (r : Resolved) : Bool :=
  r.src.isSome && r.dst.isSome && r.srv.isSome && r.add.isSome && r.rm.isSome

/-- `row[cfgs[k]]`: a missing dict binding raises `KeyError`, an index
beyond the row raises `IndexError`; both are uncaught in the source (the
only handler around the loop catches `InvalidFileException`). -/
def getCell (row : List Cell) : Option Nat → Except String Cell
  | none => Except.error "KeyError"
  | some i =>
      match row.get? i with
      | none => Except.error "IndexError"
      | some c => Except.ok c

/-- Row normalization (scformatter.py lines 210-241): read the seven
cells in source evaluation order (SRC, DST, SRV, ADD, RM, USG, CMT —
the USG/CMT reads at lines 232/234 happen unconditionally, before the
outcome decision), strip each, then decide the outcome. -/
def normalize (repl : List (String × String)) (cols : Resolved)
    (row : List Cell) : Except String RowOutcome :=
  (getCell row cols.src).bind fun cSrc =>
  (getCell row cols.dst).bind fun cDst =>
  (getCell row cols.srv).bind fun cSrv =>
  (getCell row cols.add).bind fun cAdd =>
  (getCell row cols.rm).bind fun cRm =>
  (getCell row cols.usg).bind fun cUsg =>
  (getCell row cols.cmt).bind fun cCmt =>
  Except.ok (normalizeCore repl (safe_strip cSrc) (safe_strip cDst)
    (safe_strip cSrv) (safe_strip cAdd) (safe_strip cRm)
    (safe_strip cUsg) (safe_strip cCmt))

/-- The data-row loop of one sheet (scformatter.py lines 208-249):
normalize each row in order; accepted rows are appended to the output
sheet, skipped/rejected rows consume no output slot.  An uncaught
exception from a row aborts everything (it propagates out of
`convert_excels`). -/
def processRows (repl : List (String × String)) (cols : Resolved) :
    List (List Cell) → Except String (List CanonicalRow)
  | [] => Except.ok []
  | r :: rest => do
      let o ← normalize repl cols r
      let tail ← processRows repl cols rest
      match o with
      | RowOutcome.accepted cr => pure (cr :: tail)
      | _ => pure tail

/-- The sheet loop (scformatter.py lines 185-249): resolve the headers
from the first two rows; a sheet missing a required field is skipped
entirely; otherwise its data rows (from row 2 on, i.e. dropping only the
first row — row 2 serves as both header row and first data row) produce
one output sheet. -/
def convertSheets (cfg : Configs) :
    List (List (List Cell)) → Except String (List (List CanonicalRow))
  | [] => Except.ok []
  | sheet :: rest =>
      let cols := resolveCols cfg (sheet.take 2)
      if requiredResolved cols then do
        let rowsOut ← processRows cfg.service_replace cols (sheet.drop 1)
        let tail ← convertSheets cfg rest
        pure (rowsOut :: tail)
      else
        convertSheets cfg rest

/-- The file loop (scformatter.py lines 179-255), with workbook I/O
abstracted away: each input file contributes the output sheets of its
sheets, in order. -/
def convertFiles (cfg : Configs) :
    List (List (List (List Cell))) → Except String (List (List CanonicalRow))
  | [] => Except.ok []
  | file :: rest => do
      let a ← convertSheets cfg file
      let b ← convertFiles cfg rest
      pure (a ++ b)

/-- The validation test on the configuration (scformatter.py line 160):
all of `REQUIRED_CONFIGS` = {SRC, DST, SRV, ADD, RM} are present. -/
def requiredConfigsPresent (cfg : Configs) : Bool :=
  cfg.src.isSome && cfg.dst.isSome && cfg.srv.isSome &&
    cfg.add.isSome && cfg.rm.isSome

/-- Python truthiness of the `output` argument (`if not output`,
scformatter.py line 164): falsy when absent or the empty string. -/
def outputFalsy : Option String → Bool
  | none => true
  | some s => s.data.isEmpty

/-- Result of a run of `convert_excels`: either it aborted during the
initial validation (the error messages are printed and the function
returns before touching any input file, so no output workbook is ever
saved), or it finished and saved the listed output sheets. -/
inductive ConvertResult where
  | aborted : List String → ConvertResult
  | finished : List (List CanonicalRow) → ConvertResult
deriving DecidableEq, Repr

/-- `convert_excels` (scformatter.py lines 145-256): validate configs,
inputs and output (lines 158-168) and return early on any error;
otherwise process every file and save the output workbook.  An uncaught
per-row exception propagates as `Except.error`. -/
def convertExcels (cfg : Configs) (inputs : List (List (List (List Cell))))
    (output : Option String) : Except String ConvertResult :=
  let errs :=
    (if requiredConfigsPresent cfg then []
     else ["ERROR: configs is not correct. SRC, DST, SRV are required."]) ++
    (if inputs.isEmpty then ["ERROR: No Excel files found in the given path."] else []) ++
    (if outputFalsy output then ["ERROR: output file is Empty"] else [])
  if errs ≠ [] then Except.ok (ConvertResult.aborted errs)
  else do
    let sheets ← convertFiles cfg inputs
    pure (ConvertResult.finished sheets)

/-! ## Helper lemmas -/

/-- Reduction of `normalize` when all seven cell reads succeed. -/
theorem normalize_eq (repl : List (String × String)) (cols : Resolved)
    (row : List Cell) (cSrc cDst cSrv cAdd cRm cUsg cCmt : Cell)
    (h1 : getCell row cols.src = Except.ok cSrc)
    (h2 : getCell row cols.dst = Except.ok cDst)
    (h3 : getCell row cols.srv = Except.ok cSrv)
    (h4 : getCell row cols.add = Except.ok cAdd)
    (h5 : getCell row cols.rm = Except.ok cRm)
    (h6 : getCell row cols.usg = Except.ok cUsg)
    (h7 : getCell row cols.cmt = Except.ok cCmt) :
    normalize repl cols row = Except.ok (normalizeCore repl
      (safe_strip cSrc) (safe_strip cDst) (safe_strip cSrv)
      (safe_strip cAdd) (safe_strip cRm) (safe_strip cUsg)
      (safe_strip cCmt)) := by
  simp [normalize, h1, h2, h3, h4, h5, h6, h7, Except.bind]

/-- A dict read after a dict write: the written key returns the new
value, other keys are unaffected. -/
theorem getCol_setCol (r : Resolved) (f g : Field) (i : Nat) :
    getCol (setCol r f i) g = if g = f then some i else getCol r g := by
  cases f <;> cases g <;> simp [setCol, getCol]

/-- `find?` over an append is the first `find?`, with the second as
fallback. -/
theorem find?_append_or {α : Type} (p : α → Bool) (l₁ l₂ : List α) :
    (l₁ ++ l₂).find? p = ((l₁.find? p).or (l₂.find? p)) := by
  induction l₁ with
  | nil => simp
  | cons a t ih =>
      cases h : p a with
      | true => simp [h]
      | false => simp [h, ih]

/-- The fold implementing the `cfgs` dict comprehension binds each field
to the index of the LAST scan pair matching it (a dict assignment
overwrites), falling back to the initial accumulator. -/
theorem resolveFold_getCol (cfg : Configs) (f : Field) :
    ∀ (l : List (Nat × String)) (acc : Resolved),
      getCol (l.foldl (resolveStep cfg) acc) f =
        ((l.reverse.find? (fun p => revLookup cfg p.2 == some f)).map Prod.fst).or
          (getCol acc f) := by
  intro l
  induction l with
  | nil => intro acc; rfl
  | cons x t ih =>
      intro acc
      rw [List.foldl_cons, ih (resolveStep cfg acc x), List.reverse_cons,
        find?_append_or]
      cases hfind : t.reverse.find? (fun p => revLookup cfg p.2 == some f) with
      | some p => simp [hfind]
      | none =>
          simp only [Option.map_none', Option.none_or]
          cases hl : revLookup cfg x.2 with
          | none =>
              have hpx : (revLookup cfg x.2 == some f) = false := by
                rw [hl]; rfl
              simp [resolveStep, hl, List.find?, hpx]
          | some g =>
              by_cases hgf : g = f
              · have hpx : (revLookup cfg x.2 == some f) = true := by
                  rw [hl, hgf]; simp
                simp [resolveStep, hl, List.find?, hpx, getCol_setCol, hgf]
              · have hpx : (revLookup cfg x.2 == some f) = false := by
                  rw [hl]; simp [hgf]
                have hb : (g == f) = false := by simp [hgf]
                simp [resolveStep, hl, List.find?, hpx, hb, getCol_setCol,
                  Ne.symm hgf]

/-- The empty `cfgs` dict has no bindings. -/
theorem getCol_default (f : Field) : getCol {} f = none := by
  cases f <;> rfl

/-! ## Claims -/

/-- C1 (code bug): a sheet whose headers resolve all five required
fields but contain no USG/CMT header passes the sheet validation
(`requiredResolved` is true) with USG and CMT unbound, yet normalizing
its data row does not complete: the unguarded `row[cfgs["USG"]]` read
raises `KeyError`, which no handler catches, so the whole run aborts
with no output ever saved. -/
theorem c1_keyerror :
    requiredResolved (resolveCols
        ⟨some "Source", some "Destination", some "Service", some "Add",
          some "Remove", some "Usage", some "Comment", []⟩
        [[Cell.str "Source", Cell.str "Destination", Cell.str "Service",
          Cell.str "Add", Cell.str "Remove"],
         [Cell.str "a", Cell.str "b", Cell.str "80", Cell.empty, Cell.empty]]) = true ∧
    (resolveCols
        ⟨some "Source", some "Destination", some "Service", some "Add",
          some "Remove", some "Usage", some "Comment", []⟩
        [[Cell.str "Source", Cell.str "Destination", Cell.str "Service",
          Cell.str "Add", Cell.str "Remove"],
         [Cell.str "a", Cell.str "b", Cell.str "80", Cell.empty, Cell.empty]]).usg = none ∧
    convertExcels
        ⟨some "Source", some "Destination", some "Service", some "Add",
          some "Remove", some "Usage", some "Comment", []⟩
        [[[[Cell.str "Source", Cell.str "Destination", Cell.str "Service",
            Cell.str "Add", Cell.str "Remove"],
           [Cell.str "a", Cell.str "b", Cell.str "80", Cell.empty, Cell.empty]]]]
        (some "output.xlsx") = Except.error "KeyError" :=
  ⟨rfl, rfl, rfl⟩

/-- C2 (amended): a row whose source, destination and service cells all
normalize to empty text is classified Skipped regardless of the usage
and comment cells and of the add/remove flags, PROVIDED not both flags
are truthy; with both flags truthy the reason count is four, not three,
and the row is Rejected instead. -/
theorem c2_skipped (repl : List (String × String)) (cols : Resolved)
    (row : List Cell) (cSrc cDst cSrv cAdd cRm cUsg cCmt : Cell)
    (h1 : getCell row cols.src = Except.ok cSrc)
    (h2 : getCell row cols.dst = Except.ok cDst)
    (h3 : getCell row cols.srv = Except.ok cSrv)
    (h4 : getCell row cols.add = Except.ok cAdd)
    (h5 : getCell row cols.rm = Except.ok cRm)
    (h6 : getCell row cols.usg = Except.ok cUsg)
    (h7 : getCell row cols.cmt = Except.ok cCmt)
    (hs : safe_strip cSrc = "") (hd : safe_strip cDst = "")
    (hv : safe_strip cSrv = "")
    (hf : ¬(safe_strip cAdd ≠ "" ∧ safe_strip cRm ≠ "")) :
    normalize repl cols row = Except.ok RowOutcome.skipped := by
  rw [normalize_eq repl cols row cSrc cDst cSrv cAdd cRm cUsg cCmt
    h1 h2 h3 h4 h5 h6 h7]
  simp [normalizeCore, rowErrors, hs, hd, hv, hf]

/-- C2 counterexample: with all three core cells blank but BOTH flags
truthy, the row is Rejected (four reasons), not Skipped as the claim
states. -/
theorem c2_cex :
    normalize [] ⟨some 0, some 1, some 2, some 3, some 4, some 5, some 6⟩
        [Cell.empty, Cell.empty, Cell.empty, Cell.str "y", Cell.str "y",
         Cell.empty, Cell.empty] =
      Except.ok (RowOutcome.rejected
        [Reason.missSrc, Reason.missDst, Reason.missSrv, Reason.bothAddRm]) ∧
    RowOutcome.rejected
        [Reason.missSrc, Reason.missDst, Reason.missSrv, Reason.bothAddRm] ≠
      RowOutcome.skipped :=
  ⟨rfl, by decide⟩

/-- C2 witness: a concrete all-core-blank row with a single flag set is
Skipped. -/
theorem c2_witness :
    normalize [] ⟨some 0, some 1, some 2, some 3, some 4, some 5, some 6⟩
        [Cell.empty, Cell.empty, Cell.empty, Cell.str "y", Cell.empty,
         Cell.empty, Cell.empty] =
      Except.ok RowOutcome.skipped :=
  c2_skipped [] ⟨some 0, some 1, some 2, some 3, some 4, some 5, some 6⟩
    [Cell.empty, Cell.empty, Cell.empty, Cell.str "y", Cell.empty,
     Cell.empty, Cell.empty]
    Cell.empty Cell.empty Cell.empty (Cell.str "y") Cell.empty
    Cell.empty Cell.empty
    rfl rfl rfl rfl rfl rfl rfl rfl rfl rfl (by decide)

/-- C3 (code bug): a row with BOTH flags truthy and exactly two of the
three core cells blank accumulates three reasons, so the
`len(error_msg) == 3` test — whose own comment says it is there to
"Skip empty line" — silently skips this non-empty row instead of
rejecting it with the mutual-exclusion reason. -/
theorem c3_silent_skip :
    normalize [] ⟨some 0, some 1, some 2, some 3, some 4, some 5, some 6⟩
        [Cell.empty, Cell.empty, Cell.str "80", Cell.str "y", Cell.str "y",
         Cell.empty, Cell.empty] =
      Except.ok RowOutcome.skipped :=
  rfl

/-- C4 (amended): during schema resolution a logical field is bound to
the column index of the LAST matching cell of the scan (row one scanned
before row two, `enumerate` restarting per row): the `cfgs` dict
comprehension overwrites earlier bindings. -/
theorem c4_last_match (cfg : Configs) (row1 row2 : List Cell) (f : Field) :
    getCol (resolveCols cfg [row1, row2]) f =
      ((scanPairs [row1, row2]).reverse.find?
        (fun p => revLookup cfg p.2 == some f)).map Prod.fst := by
  have h := resolveFold_getCol cfg f (scanPairs [row1, row2]) {}
  rw [getCol_default f, Option.or_none] at h
  exact h

/-- C4 counterexample: the header "Source" appears at column 0 of row
one and column 5 of row two; SRC is bound to 5 (the last match), not to
0 (the first) as the claim states. -/
theorem c4_cex :
    (resolveCols
        ⟨some "Source", some "Destination", some "Service", some "Add",
          some "Remove", none, none, []⟩
        [[Cell.str "Source", Cell.str "Destination", Cell.str "Service",
          Cell.str "Add", Cell.str "Remove"],
         [Cell.empty, Cell.empty, Cell.empty, Cell.empty, Cell.empty,
          Cell.str "Source"]]).src = some 5 ∧
    (some 5 : Option Nat) ≠ some 0 :=
  ⟨rfl, by decide⟩

/-- C5 (amended): for an accepted row the normalized source and
destination values are the cell text split on newline and comma with ALL
fragments — empty ones included — rejoined with "; ": the source has no
empty-fragment filter for these two fields, so "a,,b" yields "a; ; b". -/
theorem c5_join_all_fragments (repl : List (String × String))
    (cols : Resolved) (row : List Cell)
    (cSrc cDst cSrv cAdd cRm cUsg cCmt : Cell)
    (h1 : getCell row cols.src = Except.ok cSrc)
    (h2 : getCell row cols.dst = Except.ok cDst)
    (h3 : getCell row cols.srv = Except.ok cSrv)
    (h4 : getCell row cols.add = Except.ok cAdd)
    (h5 : getCell row cols.rm = Except.ok cRm)
    (h6 : getCell row cols.usg = Except.ok cUsg)
    (h7 : getCell row cols.cmt = Except.ok cCmt)
    (hs : safe_strip cSrc ≠ "") (hd : safe_strip cDst ≠ "")
    (hv : safe_strip cSrv ≠ "")
    (hf : ¬(safe_strip cAdd ≠ "" ∧ safe_strip cRm ≠ "")) :
    ∃ cr, normalize repl cols row = Except.ok (RowOutcome.accepted cr) ∧
      cr.src = String.intercalate "; " (splitCells (safe_strip cSrc)) ∧
      cr.dst = String.intercalate "; " (splitCells (safe_strip cDst)) := by
  refine ⟨{ src := joinSplit (safe_strip cSrc)
            dst := joinSplit (safe_strip cDst)
            srv := srvTransform repl (safe_strip cSrv)
            act := actionOf (safe_strip cAdd) (safe_strip cRm)
            cmt := commentOf (safe_strip cUsg) (safe_strip cCmt) },
    ?_, rfl, rfl⟩
  rw [normalize_eq repl cols row cSrc cDst cSrv cAdd cRm cUsg cCmt
    h1 h2 h3 h4 h5 h6 h7]
  simp [normalizeCore, rowErrors, hs, hd, hv, hf]

/-- C5 counterexample: a source cell "a,,b" normalizes to "a; ; b" — the
empty middle fragment is kept — and not to the "a; b" the claim
predicts. -/
theorem c5_cex :
    normalize [] ⟨some 0, some 1, some 2, some 3, some 4, some 5, some 6⟩
        [Cell.str "a,,b", Cell.str "d", Cell.str "s", Cell.empty, Cell.empty,
         Cell.empty, Cell.empty] =
      Except.ok (RowOutcome.accepted
        { src := "a; ; b", dst := "d", srv := "s", act := "", cmt := "" }) ∧
    ("a; ; b" : String) ≠ "a; b" :=
  ⟨rfl, by decide⟩

/-- C5 witness: concrete instance of the amended statement. -/
theorem c5_witness :
    ∃ cr, normalize [] ⟨some 0, some 1, some 2, some 3, some 4, some 5, some 6⟩
        [Cell.str "a,,b", Cell.str "10.0.0.5,x", Cell.str "80", Cell.empty,
         Cell.empty, Cell.empty, Cell.empty] =
      Except.ok (RowOutcome.accepted cr) ∧
      cr.src = String.intercalate "; "
        (splitCells (safe_strip (Cell.str "a,,b"))) ∧
      cr.dst = String.intercalate "; "
        (splitCells (safe_strip (Cell.str "10.0.0.5,x"))) :=
  c5_join_all_fragments []
    ⟨some 0, some 1, some 2, some 3, some 4, some 5, some 6⟩
    [Cell.str "a,,b", Cell.str "10.0.0.5,x", Cell.str "80", Cell.empty,
     Cell.empty, Cell.empty, Cell.empty]
    (Cell.str "a,,b") (Cell.str "10.0.0.5,x") (Cell.str "80")
    Cell.empty Cell.empty Cell.empty Cell.empty
    rfl rfl rfl rfl rfl rfl rfl (by decide) (by decide) (by decide) (by decide)

/-- C6 (amended): a service fragment that is a pure decimal numeral is
rewritten to "TCP " followed by the numeral; a fragment containing any
character that is not numeric in the Unicode sense of `str.isnumeric`
is left unprefixed.  (A fragment made of non-digit Unicode NUMERIC
characters, such as "⅕", is also prefixed — see the counterexample.) -/
theorem c6_tagging (f : String) :
    (f.data ≠ [] → f.data.all Char.isDigit = true →
      tagFragment f = "TCP " ++ f) ∧
    ((∃ c, c ∈ f.data ∧ pyNumericChar c = false) → tagFragment f = f) := by
  constructor
  · intro h1 h2
    have hnum : pyIsNumeric f = true := by
      rw [pyIsNumeric, Bool.and_eq_true]
      refine ⟨by simpa using h1, ?_⟩
      rw [List.all_eq_true] at h2 ⊢
      intro c hc
      rw [pyNumericChar]
      simp [h2 c hc]
    simp [tagFragment, hnum]
  · rintro ⟨c, hc, hnc⟩
    have hnum : pyIsNumeric f = false := by
      rw [pyIsNumeric]
      have : f.data.all pyNumericChar = false := by
        rw [List.all_eq_false]
        exact ⟨c, hc, by simp [hnc]⟩
      simp [this]
    simp [tagFragment, hnum]

/-- C6 counterexample: the fragment "⅕" contains no decimal digit, yet
`str.isnumeric` accepts it (U+2155 has a Unicode numeric value), so the
code prefixes it: the claim that any fragment containing a non-digit
character stays unprefixed is false. -/
theorem c6_cex :
    tagFragment "⅕" = "TCP ⅕" ∧ ('⅕' ∈ "⅕".data ∧ Char.isDigit '⅕' = false) ∧
      srvTransform [] "⅕" = "TCP ⅕" := by
  decide

/-- C6 witness: "80" is prefixed, "8a" is not. -/
theorem c6_witness : tagFragment "80" = "TCP 80" ∧ tagFragment "8a" = "8a" :=
  ⟨(c6_tagging "80").1 (by decide) (by decide),
   (c6_tagging "8a").2 ⟨'a', by decide, by decide⟩⟩

/-- C7: a row whose source, destination and service cells normalize to
non-empty text, with at most one of the add/remove flags truthy, is
Accepted with the canonical 5-tuple; the action is "accept" when the add
flag is set, "remove" when only the remove flag is set, and ""
when neither is. -/
theorem c7_accepted (repl : List (String × String)) (cols : Resolved)
    (row : List Cell) (cSrc cDst cSrv cAdd cRm cUsg cCmt : Cell)
    (h1 : getCell row cols.src = Except.ok cSrc)
    (h2 : getCell row cols.dst = Except.ok cDst)
    (h3 : getCell row cols.srv = Except.ok cSrv)
    (h4 : getCell row cols.add = Except.ok cAdd)
    (h5 : getCell row cols.rm = Except.ok cRm)
    (h6 : getCell row cols.usg = Except.ok cUsg)
    (h7 : getCell row cols.cmt = Except.ok cCmt)
    (hs : safe_strip cSrc ≠ "") (hd : safe_strip cDst ≠ "")
    (hv : safe_strip cSrv ≠ "")
    (hf : ¬(safe_strip cAdd ≠ "" ∧ safe_strip cRm ≠ "")) :
    normalize repl cols row = Except.ok (RowOutcome.accepted
      { src := joinSplit (safe_strip cSrc)
        dst := joinSplit (safe_strip cDst)
        srv := srvTransform repl (safe_strip cSrv)
        act := if safe_strip cAdd ≠ "" then "accept"
               else if safe_strip cRm ≠ "" then "remove" else ""
        cmt := commentOf (safe_strip cUsg) (safe_strip cCmt) }) := by
  rw [normalize_eq repl cols row cSrc cDst cSrv cAdd cRm cUsg cCmt
    h1 h2 h3 h4 h5 h6 h7]
  simp [normalizeCore, rowErrors, actionOf, hs, hd, hv, hf]

/-- C7 witness: the specification's own scenario row. -/
theorem c7_witness :
    normalize [] ⟨some 0, some 1, some 2, some 3, some 4, some 5, some 6⟩
        [Cell.str "10.0.0.1\n10.0.0.2", Cell.str "10.0.0.5", Cell.str "80,443",
         Cell.str "yes", Cell.empty, Cell.empty, Cell.empty] =
      Except.ok (RowOutcome.accepted
        { src := "10.0.0.1; 10.0.0.2", dst := "10.0.0.5",
          srv := "TCP 80; TCP 443", act := "accept", cmt := "" }) := by
  have h := c7_accepted []
    ⟨some 0, some 1, some 2, some 3, some 4, some 5, some 6⟩
    [Cell.str "10.0.0.1\n10.0.0.2", Cell.str "10.0.0.5", Cell.str "80,443",
     Cell.str "yes", Cell.empty, Cell.empty, Cell.empty]
    (Cell.str "10.0.0.1\n10.0.0.2") (Cell.str "10.0.0.5")
    (Cell.str "80,443") (Cell.str "yes") Cell.empty Cell.empty Cell.empty
    rfl rfl rfl rfl rfl rfl rfl (by decide) (by decide) (by decide) (by decide)
  exact h.trans rfl

/-- C8 counterexample: a numeric cell holding 0 is falsy in Python, so
`safe_strip` maps it to the empty string, not to "0" as the claim
states. -/
theorem c8_cex : safe_strip (Cell.int 0) = "" ∧ ("" : String) ≠ "0" := by
  decide

/-- C8 (amended): text normalization coerces TRUTHY non-string cell
content to its display text; falsy content — an empty cell or the
number 0 — normalizes to the empty string. -/
theorem c8_strip (n : Int) (hn : n ≠ 0) :
    safe_strip (Cell.int n) = toString n ∧ safe_strip (Cell.int 0) = "" ∧
      safe_strip Cell.empty = "" := by
  refine ⟨?_, rfl, rfl⟩
  simp [safe_strip, hn]

/-- C8 witness: the cell holding 7 normalizes to "7". -/
theorem c8_witness :
    safe_strip (Cell.int 7) = toString (7 : Int) ∧
      safe_strip (Cell.int 0) = "" ∧ safe_strip Cell.empty = "" :=
  c8_strip 7 (by decide)

/-- C9: when the configuration misses any of the five required logical
fields, `convert_excels` returns during its initial validation: the
configuration error message is reported exactly once and the result is
`aborted` — no input file is processed and no output workbook is
saved. -/
theorem c9_abort (cfg : Configs) (inputs : List (List (List (List Cell))))
    (output : Option String) (h : requiredConfigsPresent cfg = false) :
    ∃ msgs, convertExcels cfg inputs output =
        Except.ok (ConvertResult.aborted msgs) ∧
      msgs.count "ERROR: configs is not correct. SRC, DST, SRV are required." = 1 := by
  cases hI : inputs.isEmpty with
  | true =>
      cases hO : outputFalsy output with
      | true =>
          exact ⟨["ERROR: configs is not correct. SRC, DST, SRV are required.",
                  "ERROR: No Excel files found in the given path.",
                  "ERROR: output file is Empty"],
            by simp [convertExcels, h, hI, hO], by decide⟩
      | false =>
          exact ⟨["ERROR: configs is not correct. SRC, DST, SRV are required.",
                  "ERROR: No Excel files found in the given path."],
            by simp [convertExcels, h, hI, hO], by decide⟩
  | false =>
      cases hO : outputFalsy output with
      | true =>
          exact ⟨["ERROR: configs is not correct. SRC, DST, SRV are required.",
                  "ERROR: output file is Empty"],
            by simp [convertExcels, h, hI, hO], by decide⟩
      | false =>
          exact ⟨["ERROR: configs is not correct. SRC, DST, SRV are required."],
            by simp [convertExcels, h, hI, hO], by decide⟩

/-- C9 witness: a configuration missing RM aborts the run. -/
theorem c9_witness :
    ∃ msgs, convertExcels
        ⟨some "Source", some "Destination", some "Service", some "Add",
          none, none, none, []⟩ [] none =
        Except.ok (ConvertResult.aborted msgs) ∧
      msgs.count "ERROR: configs is not correct. SRC, DST, SRV are required." = 1 :=
  c9_abort
    ⟨some "Source", some "Destination", some "Service", some "Add",
      none, none, none, []⟩ [] none rfl

/-- C10: fragments produced by splitting are not individually trimmed:
"80, 443" splits into "80" and " 443"; the second fragment keeps its
leading space, is not recognized as numeric, receives no "TCP " and the
space appears verbatim in the joined output (same for source cells such
as "a, b"). -/
theorem c10_untrimmed :
    splitCells "80, 443" = ["80", " 443"] ∧
    pyIsNumeric " 443" = false ∧
    tagFragment " 443" = " 443" ∧
    srvTransform [] "80, 443" = "TCP 80;  443" ∧
    joinSplit "a, b" = "a;  b" := by
  decide

end SCFormatter
